import Mathlib

/-!
Verification of the IEC 60870-5-104 connector scaffold
(thingsboard-gateway, files
`thingsboard_gateway/extensions/iec104/iec104_connector.py` and
`thingsboard_gateway/connectors/iec104/iec104_connector.py`)
against its natural-language specification.

The scaffold is embedded shallowly: connector instance attributes become a
state record, methods become pure functions on that record (threading and
logging side effects are made explicit as returned data), and Python dict
lookups are modelled over an association list of Python-like values.
The Frame Codec and Command Dispatcher of the specified protocol core do
not exist in the source tree; they are modelled from the spec where a
claim needs them, and marked as such.
-/

namespace IEC104

/-- Model of the Python values stored in the `content` / `config` dicts
handled by the scaffold: `None`, booleans, integers and strings. -/
inductive PyValue where
  | noneV : PyValue
  | boolV : Bool → PyValue
  | intV : Int → PyValue
  | strV : String → PyValue
deriving Repr, DecidableEq

/-- Python truthiness of a value, as used by `if request_id:` in
`server_side_rpc_handler`. -/
def PyValue.truthy : PyValue → Bool
  | .noneV => false
  | .boolV b => b
  | .intV i => i != 0
  | .strV s => !s.isEmpty

/-- Python `str()` rendering, as interpolated into the scaffold f-strings. -/
def PyValue.display : PyValue → String
  | .noneV => "None"
  | .boolV true => "True"
  | .boolV false => "False"
  | .intV i => toString i
  | .strV s => s

/-- A Python dict, modelled as an association list (first binding wins). -/
abbrev Content : Type := List (String × PyValue)

/-- Python `dict.get(key)`: the bound value, or `None` when absent. -/
def Content.get (c : Content) (k : String) : PyValue :=
  match List.find? (fun p => p.1 = k) c with
  | some p => p.2
  | none => PyValue.noneV

/-- Python `dict.get(key, default)`. -/
def Content.getD (c : Content) (k : String) (d : PyValue) : PyValue :=
  match List.find? (fun p => p.1 = k) c with
  | some p => p.2
  | none => d

/-- Constant `DEVICE_SECTION_PARAMETER` from
`thingsboard_gateway.gateway.constants` (imported by the scaffold; the
constants module is outside the provided sources, values are the gateway
project ones). -/
def DEVICE_SECTION_PARAMETER : String := "device"

/-- Constant `RPC_METHOD_PARAMETER` from the gateway constants module. -/
def RPC_METHOD_PARAMETER : String := "method"

/-- Constant `RPC_PARAMS_PARAMETER` from the gateway constants module. -/
def RPC_PARAMS_PARAMETER : String := "params"

/-- Constant `DATA_PARAMETER` from the gateway constants module. -/
def DATA_PARAMETER : String := "data"

/-- Observable state of an `iecConnector` instance from
`extensions/iec104/iec104_connector.py`: the attributes assigned in
`__init__` (`_connector_name`, `_config`, `_connected`, `_stopped`). -/
structure ExtState where
  connectorName : String
  config : Content
  connected : Bool
  stopped : Bool
deriving Repr, DecidableEq

/-- `iecConnector.__init__(gateway, config, connector_name)` of the
extensions variant: stores the name and config and sets
`self._connected = False` and `self._stopped = False`. -/
def ExtState.init (connector_name : String) (config : Content) : ExtState :=
  { connectorName := connector_name
    config := config
    connected := false
    stopped := false }

/-- `get_id`: returns `self._connector_name` (the name doubles as id). -/
def ExtState.get_id (s : ExtState) : String := s.connectorName

/-- `get_name`: returns `self._connector_name`. -/
def ExtState.get_name (s : ExtState) : String := s.connectorName

/-- `get_type`: returns the literal `"IEC104"`. -/
def ExtState.get_type (_ : ExtState) : String := "IEC104"

/-- `get_config`: returns `self._config`. -/
def ExtState.get_config (s : ExtState) : Content := s.config

/-- `is_connected`: returns `self._connected`. -/
def ExtState.is_connected (s : ExtState) : Bool := s.connected

/-- `is_stopped`: returns `self._stopped`. -/
def ExtState.is_stopped (s : ExtState) : Bool := s.stopped

/-- `open` of the extensions variant: logs, sets `self._stopped = False`
and starts the worker thread (whose body is `ExtState.run`). -/
def ExtState.openConn (s : ExtState) : ExtState :=
  { s with stopped := false }

/-- The literal timeout passed to `self.join(timeout=5)` in `close`. -/
def joinTimeoutSeconds : Nat := 5

/-- Result of `close` on the extensions variant: the updated state, the
timeout of each `join` call performed, and whether the
did-not-terminate warning was logged. -/
structure CloseResult where
  state : ExtState
  joinTimeouts : List Nat
  warned : Bool
deriving Repr, DecidableEq

/-- `close` of the extensions variant: sets `self._stopped = True` and
`self._connected = False`; if the worker thread is alive it joins with a
5 second timeout, and logs a warning when the thread is still alive after
the join returns; then logs completion and stops the logger.  The two
Boolean parameters expose the two `is_alive()` observations the method
makes on the worker thread. -/
def ExtState.close (s : ExtState) (aliveAtClose aliveAfterJoin : Bool) :
    CloseResult :=
  let s1 : ExtState := { s with stopped := true, connected := false }
  if aliveAtClose then
    { state := s1, joinTimeouts := [joinTimeoutSeconds],
      warned := aliveAfterJoin }
  else
    { state := s1, joinTimeouts := [], warned := false }

/-- The connection phase of `run` (extensions variant): after the
simulated 1 second delay it unconditionally sets
`self._connected = True`.  No device interaction, handshake, timeout or
failure path exists in the source. -/
def ExtState.runConnect (s : ExtState) : ExtState :=
  { s with connected := true }

/-- The polling interval the loop body sleeps for:
`self._config.get("pollingInterval", 5)`. -/
def ExtState.pollingInterval (s : ExtState) : PyValue :=
  s.config.getD "pollingInterval" (PyValue.intV 5)

/-- The `while not self._stopped:` loop of `run`, with explicit fuel.
Each executed body iteration only logs and sleeps for the polling
interval, so the state is unchanged; the returned list records one entry
per body iteration actually entered (the argument of its `time.sleep`). -/
def ExtState.runLoop : Nat → ExtState → ExtState × List PyValue
  | 0, s => (s, [])
  | fuel + 1, s =>
    if s.stopped then (s, [])
    else
      let rest := ExtState.runLoop fuel s
      (rest.1, s.pollingInterval :: rest.2)

/-- `run` of the extensions variant: the connection phase followed by the
polling loop. -/
def ExtState.run (fuel : Nat) (s : ExtState) : ExtState × List PyValue :=
  ExtState.runLoop fuel s.runConnect

/-- The response payload built by `server_side_rpc_handler`. -/
structure RpcPayload where
  status : String
  message : String
deriving Repr, DecidableEq

/-- One call to `self.__gateway.send_rpc_reply(device, id, payload)`. -/
structure RpcReply where
  deviceName : PyValue
  requestId : PyValue
  payload : RpcPayload
deriving Repr, DecidableEq

/-- Result of `server_side_rpc_handler`: the returned payload and the
`send_rpc_reply` calls made on the gateway. -/
structure RpcResult where
  payload : RpcPayload
  replies : List RpcReply
deriving Repr, DecidableEq

/-- `server_side_rpc_handler(content)` of the extensions variant: reads
the device name, request id, method and params from `content`, builds the
simulated success payload, calls `send_rpc_reply` exactly when the
request id is truthy, and returns the payload.  It never reads
`self._connected`. -/
def ExtState.server_side_rpc_handler (_ : ExtState) (content : Content) :
    RpcResult :=
  let device_name := content.get DEVICE_SECTION_PARAMETER
  let request_id := content.get "id"
  let method := content.get RPC_METHOD_PARAMETER
  let _params := content.get RPC_PARAMS_PARAMETER
  let payload : RpcPayload :=
    { status := "success"
      message := "RPC method \x27" ++ method.display ++ "\x27 for device \x27"
        ++ device_name.display ++ "\x27 processed (simulated)." }
  let replies :=
    if request_id.truthy then
      [{ deviceName := device_name, requestId := request_id,
         payload := payload }]
    else []
  { payload := payload, replies := replies }

/-- `on_attributes_update(content)` of the extensions variant: reads the
device name and data from `content` and logs; no instance attribute is
assigned, so the state is unchanged. -/
def ExtState.on_attributes_update (s : ExtState) (_ : Content) : ExtState :=
  s

/-- Observable state of the `iecConnector` of the connectors-package
variant (`connectors/iec104/iec104_connector.py`): the attributes
assigned in its `__init__`. -/
structure ConnState where
  connectorName : String
  config : Content
  connected : Bool
deriving Repr, DecidableEq

/-- `__init__` of the connectors-package variant: stores the name and
config and sets `self._connected = False`. -/
def ConnState.init (connector_name : String) (config : Content) : ConnState :=
  { connectorName := connector_name
    config := config
    connected := false }

/-- `open` of the connectors-package variant: logs and immediately sets
`self._connected = True`; no handshake or failure path. -/
def ConnState.openConn (s : ConnState) : ConnState :=
  { s with connected := true }

/-- `close` of the connectors-package variant: logs and sets
`self._connected = False`. -/
def ConnState.close (s : ConnState) : ConnState :=
  { s with connected := false }

/-- `get_name` of the connectors-package variant. -/
def ConnState.get_name (s : ConnState) : String := s.connectorName

/-- `is_connected` of the connectors-package variant. -/
def ConnState.is_connected (s : ConnState) : Bool := s.connected

/-- `on_attributes_update` of the connectors-package variant: logs only,
state unchanged. -/
def ConnState.on_attributes_update (s : ConnState) (_ : Content) : ConnState :=
  s

/-- Modelled from the spec: the U-format control functions of the Frame
Codec (§3, §4.1); no codec exists in the provided sources. -/
inductive UFunc where
  | startdtAct | startdtCon | stopdtAct | stopdtCon | testfrAct | testfrCon
deriving Repr, DecidableEq

/-- Modelled from the spec: the first control octet carried by each
U-format function (standard IEC 60870-5-104 layout: the two low bits are
`11` for U-format, as §4.1 requires). -/
def UFunc.toByte : UFunc → Nat
  | .startdtAct => 0x07
  | .startdtCon => 0x0B
  | .stopdtAct => 0x13
  | .stopdtCon => 0x23
  | .testfrAct => 0x43
  | .testfrCon => 0x83

/-- Modelled from the spec: recognising a U-format control octet; octets
outside the allowed set are inconsistent control fields (§4.1,
`Malformed`). -/
def UFunc.fromByte (b : Nat) : Option UFunc :=
  if b = 0x07 then some .startdtAct
  else if b = 0x0B then some .startdtCon
  else if b = 0x13 then some .stopdtAct
  else if b = 0x23 then some .stopdtCon
  else if b = 0x43 then some .testfrAct
  else if b = 0x83 then some .testfrCon
  else none

/-- Modelled from the spec: an APDU (§3) is an I-format frame carrying
send and receive sequence numbers and one ASDU (kept abstract as its byte
image), an S-format frame carrying only a receive sequence number, or a
U-format control frame. -/
inductive APDU where
  | iFrame (ssn rsn : Nat) (asdu : List Nat)
  | sFrame (rsn : Nat)
  | uFrame (f : UFunc)
deriving Repr, DecidableEq

/-- Modelled from the spec: the typed decode errors of the Frame Codec
(§4.1, §7). -/
inductive FrameError where
  | truncated | malformed
deriving Repr, DecidableEq

/-- Modelled from the spec: the maximum value of the APDU length byte
(§4.1: total APDU length minus start and length fields, max 253). -/
def maxApduLength : Nat := 253

/-- Structural validity of an APDU value (§3): sequence numbers are
15-bit counters (modulo 32768), ASDU bytes are octets, and the encoded
length fits the length byte bound. -/
def APDU.validb : APDU → Bool
  | .iFrame ssn rsn asdu =>
    decide (ssn < 32768) && decide (rsn < 32768) &&
    decide (asdu.length + 4 ≤ maxApduLength) &&
    asdu.all (fun b => decide (b < 256))
  | .sFrame rsn => decide (rsn < 32768)
  | .uFrame _ => true

/-- Modelled from the spec: the two-octet little-endian image of a 15-bit
sequence number, shifted left one bit (low bit of the first octet is the
format discriminator, §4.1). -/
def encodeSeq (n : Nat) : List Nat := [n % 128 * 2, n / 128]

/-- Modelled from the spec: `encode(APDU) -> bytes` (§4.1): fixed start
byte `0x68`, length byte covering the four control octets plus the ASDU,
then the control field laid out per format. -/
def APDU.encode : APDU → List Nat
  | .iFrame ssn rsn asdu =>
    0x68 :: (4 + asdu.length) :: (encodeSeq ssn ++ encodeSeq rsn ++ asdu)
  | .sFrame rsn => 0x68 :: 4 :: 0x01 :: 0x00 :: encodeSeq rsn
  | .uFrame f => [0x68, 4, f.toByte, 0x00, 0x00, 0x00]

/-- Modelled from the spec: `decode(bytes) -> APDU | FrameError` (§4.1):
`Truncated` when fewer bytes than the declared length are available,
`Malformed` when the start byte, the length bound or the control-field
layout is violated; otherwise the structurally valid frame.  Total on
every byte sequence (fuzz-safety, §4.1). -/
def decode : List Nat → Except FrameError APDU
  | [] => .error .truncated
  | [_] => .error .truncated
  | start :: len :: rest =>
    if start ≠ 0x68 then .error .malformed
    else if len > maxApduLength then .error .malformed
    else if len < 4 then .error .malformed
    else if rest.length < len then .error .truncated
    else
      match rest with
      | c1 :: c2 :: c3 :: c4 :: payload =>
        if c1 % 2 = 0 then
          if c3 % 2 ≠ 0 then .error .malformed
          else .ok (.iFrame (c2 * 128 + c1 / 2) (c4 * 128 + c3 / 2)
            (payload.take (len - 4)))
        else if c1 % 4 = 1 then
          if c1 ≠ 0x01 ∨ c2 ≠ 0 ∨ c3 % 2 ≠ 0 ∨ len ≠ 4 then .error .malformed
          else .ok (.sFrame (c4 * 128 + c3 / 2))
        else
          if c2 ≠ 0 ∨ c3 ≠ 0 ∨ c4 ≠ 0 ∨ len ≠ 4 then .error .malformed
          else
            match UFunc.fromByte c1 with
            | some f => .ok (.uFrame f)
            | none => .error .malformed
      | _ => .error .truncated

/-- Modelled from the spec: a CommandRequest (§3):
`(deviceId, pointAddress, commandType, value, qualifier)`. -/
structure CommandRequest where
  deviceId : String
  pointAddress : Nat
  commandType : Nat
  value : Int
  qualifier : Nat
deriving Repr, DecidableEq

/-- Modelled from the spec: the per-CommandRequest lifecycle states of
the Command Dispatcher (§4.5). -/
inductive CmdPhase where
  | pending | sent | confirmed | terminated | rejected | timedOut
deriving Repr, DecidableEq

/-- Modelled from the spec: a command counts as resolved once confirmed,
terminated, rejected, or timed out (§3: a CommandRequest is destroyed
once confirmed/executed/timed out/rejected). -/
def CmdPhase.resolved : CmdPhase → Bool
  | .confirmed | .terminated | .rejected | .timedOut => true
  | .pending | .sent => false

/-- Modelled from the spec: one in-flight CommandRequest keyed by its
activation sequence (§3, SessionState). -/
structure InflightCmd where
  activationSeq : Nat
  request : CommandRequest
  phase : CmdPhase
deriving Repr, DecidableEq

/-- Modelled from the spec: the typed command errors surfaced to the RPC
caller (§7). -/
inductive CommandError where
  | busy | rejected | timedOut | notConnected
deriving Repr, DecidableEq

/-- Modelled from the spec: the Command Dispatcher state: the next
activation sequence to assign and the in-flight commands (§3, §4.5). -/
structure DispatcherState where
  nextActivationSeq : Nat
  inflight : List InflightCmd
deriving Repr, DecidableEq

/-- Modelled from the spec: whether some command for the given point
address is outstanding, i.e. not yet resolved (§4.5). -/
def DispatcherState.outstandingFor (st : DispatcherState) (addr : Nat) :
    Bool :=
  st.inflight.any (fun c => c.request.pointAddress = addr && !c.phase.resolved)

/-- Modelled from the spec: issuing a CommandRequest (§4.5): a second
request for a point address with one outstanding fails immediately with
`CommandError::Busy` and leaves the dispatcher untouched; otherwise the
request is assigned the next activation sequence and recorded as sent. -/
def DispatcherState.sendCommand (st : DispatcherState) (req : CommandRequest) :
    Except CommandError Nat × DispatcherState :=
  if st.outstandingFor req.pointAddress then (.error .busy, st)
  else
    (.ok st.nextActivationSeq,
      { nextActivationSeq := st.nextActivationSeq + 1
        inflight := st.inflight ++
          [{ activationSeq := st.nextActivationSeq, request := req,
             phase := .sent }] })

/-- The operations of the extensions-variant connector interface that a
caller may invoke after construction, for stating frame conditions.
`rpcOp` leaves the state unchanged because `server_side_rpc_handler`
assigns no instance attribute. -/
inductive Op where
  | openOp : Op
  | closeOp : Bool → Bool → Op
  | attrsOp : Content → Op
  | rpcOp : Content → Op
deriving Repr

/-- Apply one interface operation to an extensions-variant state. -/
def applyOp (s : ExtState) : Op → ExtState
  | .openOp => s.openConn
  | .closeOp a b => (s.close a b).state
  | .attrsOp c => s.on_attributes_update c
  | .rpcOp _ => s

/-- Apply a sequence of interface operations, left to right. -/
def applyOps (s : ExtState) : List Op → ExtState
  | [] => s
  | op :: ops => applyOps (applyOp s op) ops

/-- The interface operations of the connectors-package variant. -/
inductive ConnOp where
  | openOp : ConnOp
  | closeOp : ConnOp
  | attrsOp : Content → ConnOp
deriving Repr

/-- Apply one interface operation to a connectors-package state. -/
def applyConnOp (c : ConnState) : ConnOp → ConnState
  | .openOp => c.openConn
  | .closeOp => c.close
  | .attrsOp ct => c.on_attributes_update ct

/-- Apply a sequence of connectors-package operations, left to right. -/
def applyConnOps (c : ConnState) : List ConnOp → ConnState
  | [] => c
  | op :: ops => applyConnOps (applyConnOp c op) ops

theorem runLoop_fst (fuel : Nat) (s : ExtState) :
    (ExtState.runLoop fuel s).1 = s := by
  induction fuel with
  | zero => rfl
  | succ n ih =>
    simp only [ExtState.runLoop]
    split
    · rfl
    · simpa using ih

theorem applyOp_name_config (s : ExtState) (op : Op) :
    (applyOp s op).connectorName = s.connectorName ∧
    (applyOp s op).config = s.config := by
  cases op with
  | openOp => exact ⟨rfl, rfl⟩
  | closeOp a b => cases a <;> exact ⟨rfl, rfl⟩
  | attrsOp c => exact ⟨rfl, rfl⟩
  | rpcOp c => exact ⟨rfl, rfl⟩

theorem applyOps_name_config (ops : List Op) (s : ExtState) :
    (applyOps s ops).connectorName = s.connectorName ∧
    (applyOps s ops).config = s.config := by
  induction ops generalizing s with
  | nil => exact ⟨rfl, rfl⟩
  | cons op ops ih =>
    have h := applyOp_name_config s op
    have h2 := ih (applyOp s op)
    exact ⟨h2.1.trans h.1, h2.2.trans h.2⟩

theorem applyConnOps_name_config (ops : List ConnOp) (c : ConnState) :
    (applyConnOps c ops).connectorName = c.connectorName ∧
    (applyConnOps c ops).config = c.config := by
  induction ops generalizing c with
  | nil => exact ⟨rfl, rfl⟩
  | cons op ops ih =>
    have h2 := ih (applyConnOp c op)
    cases op <;> exact ⟨h2.1, h2.2⟩

/-- Claim C2: in the scaffold, `open()` always eventually makes
`is_connected()` return true without any device interaction: the
extensions variant run thread sets the connected flag unconditionally
after the simulated delay (and the flag stays true through every loop
iteration), and the connectors-package variant `open()` sets it
immediately; there is no handshake, timeout or failure path — the result
holds for every state and every fuel, with no hypothesis. -/
theorem C2_open_always_connects (s : ExtState) (fuel : Nat) (c : ConnState) :
    (s.runConnect).is_connected = true ∧
    (ExtState.run fuel s).1.is_connected = true ∧
    (ConnState.openConn c).is_connected = true := by
  refine ⟨rfl, ?_, rfl⟩
  show (ExtState.runLoop fuel s.runConnect).1.connected = true
  rw [runLoop_fst]
  rfl

/-- Claim C3: `close()` is idempotent on both variants: a second call
leaves the observable state exactly as after the first (stop flag set,
`is_connected()` false), whatever liveness the worker thread showed at
each call; being a total function of the state it raises nothing. -/
theorem C3_close_idempotent (s : ExtState) (a1 b1 a2 b2 : Bool)
    (c : ConnState) :
    ((s.close a1 b1).state.close a2 b2).state = (s.close a1 b1).state ∧
    (s.close a1 b1).state.is_stopped = true ∧
    (s.close a1 b1).state.is_connected = false ∧
    (c.close).close = c.close := by
  cases a1 <;> cases a2 <;> exact ⟨rfl, rfl, rfl, rfl⟩

/-- Claim C4: `close()` joins the worker thread with the fixed 5 second
bound (every join it performs uses `joinTimeoutSeconds = 5`), logs the
did-not-terminate warning exactly when the thread is still alive once the
join returns, and in every case completes with the closed state (stop
flag set, disconnected) — it never raises or blocks past the bound. -/
theorem C4_close_bounded_join (s : ExtState)
    (aliveAtClose aliveAfterJoin : Bool) :
    joinTimeoutSeconds = 5 ∧
    ((s.close aliveAtClose aliveAfterJoin).joinTimeouts.all
      (fun t => t = joinTimeoutSeconds)) = true ∧
    (s.close aliveAtClose aliveAfterJoin).warned =
      (aliveAtClose && aliveAfterJoin) ∧
    (s.close aliveAtClose aliveAfterJoin).state =
      { s with stopped := true, connected := false } := by
  cases aliveAtClose <;> cases aliveAfterJoin <;>
    exact ⟨rfl, rfl, rfl, rfl⟩

/-- Claim C5: once the stop flag is set, the `while not self._stopped`
loop of `run` never begins another iteration: for any fuel, the loop
performs zero body iterations (no polling sleeps) and returns the state
unchanged. -/
theorem C5_stopped_halts_loop (fuel : Nat) (s : ExtState)
    (h : s.is_stopped = true) :
    ExtState.runLoop fuel s = (s, []) := by
  cases fuel with
  | zero => rfl
  | succ n =>
    have h2 : s.stopped = true := h
    show (if s.stopped then _ else _) = _
    rw [if_pos h2]

/-- Claim C5 witness: after `close()` on a fresh connector the stop flag
is set and a loop given fuel 3 performs no iteration. -/
theorem C5_witness :
    ((ExtState.init "iec" []).close false false).state.is_stopped = true ∧
    ExtState.runLoop 3 ((ExtState.init "iec" []).close false false).state =
      (((ExtState.init "iec" []).close false false).state, []) :=
  ⟨rfl, C5_stopped_halts_loop 3 _ rfl⟩

/-- Claim C8: a freshly constructed connector of either variant reports
`is_connected() = false`, and the extensions variant additionally reports
`is_stopped() = false`; construction never reports a connected state. -/
theorem C8_fresh_state (name : String) (config : Content) :
    (ExtState.init name config).is_connected = false ∧
    (ExtState.init name config).is_stopped = false ∧
    (ConnState.init name config).is_connected = false :=
  ⟨rfl, rfl, rfl⟩

/-- Claim C9: for every content dict and every state (connected or not),
`server_side_rpc_handler` returns a payload whose status is `"success"`,
and it calls `send_rpc_reply` exactly once precisely when `content`
carries a truthy `id`; no input yields an error result. -/
theorem C9_rpc_always_success (s : ExtState) (content : Content) :
    (s.server_side_rpc_handler content).payload.status = "success" ∧
    ((s.server_side_rpc_handler content).replies.length = 1 ↔
      (content.get "id").truthy = true) ∧
    ((s.server_side_rpc_handler content).replies.length = 0 ↔
      (content.get "id").truthy = false) := by
  cases h : (content.get "id").truthy <;>
    simp [ExtState.server_side_rpc_handler, h]

/-- Claim C10: the name and configuration supplied at construction are
never modified: after any sequence of `open()`, `close()`,
`on_attributes_update()` and `server_side_rpc_handler()` calls on either
variant, `get_name()`, `get_id()` and `get_config()` return exactly the
constructor arguments. -/
theorem C10_name_config_immutable (name : String) (config : Content)
    (ops : List Op) (cops : List ConnOp) :
    (applyOps (ExtState.init name config) ops).get_name = name ∧
    (applyOps (ExtState.init name config) ops).get_id = name ∧
    (applyOps (ExtState.init name config) ops).get_config = config ∧
    (applyConnOps (ConnState.init name config) cops).get_name = name := by
  have h := applyOps_name_config ops (ExtState.init name config)
  have hc := applyConnOps_name_config cops (ConnState.init name config)
  exact ⟨h.1, h.1, h.2, hc.1⟩

/-- A concrete RPC request content dict used to exhibit the handler
behaviour while disconnected. -/
def rpcContentC1 : Content :=
  [("device", PyValue.strV "dev"), ("id", PyValue.intV 1),
   ("method", PyValue.strV "setPoint")]

/-- Claim C1 counterexample: on a freshly constructed (hence
disconnected) extensions connector, an RPC request with a truthy id does
not fail with `CommandError::NotConnected` — the handler reports success
(status `"success"`) and even sends a reply to the gateway. -/
theorem C1_counterexample :
    (ExtState.init "iec" []).is_connected = false ∧
    ((ExtState.init "iec" []).server_side_rpc_handler
      rpcContentC1).payload.status = "success" ∧
    ((ExtState.init "iec" []).server_side_rpc_handler
      rpcContentC1).replies.length = 1 :=
  ⟨rfl, rfl, rfl⟩

/-- Claim C1 amended: in the scaffold `server_side_rpc_handler` never
consults the connection state: while disconnected it does not fail with
`CommandError::NotConnected` but returns the simulated success payload,
identical to what the connected state would return. -/
theorem C1_amended (s : ExtState) (content : Content)
    (h : s.is_connected = false) :
    (s.server_side_rpc_handler content).payload.status = "success" ∧
    s.server_side_rpc_handler content =
      ExtState.server_side_rpc_handler { s with connected := true } content :=
  ⟨rfl, rfl⟩

/-- Claim C1 witness: the amended statement at a concrete disconnected
connector and request. -/
theorem C1_witness :
    (ExtState.init "iec" []).is_connected = false ∧
    (((ExtState.init "iec" []).server_side_rpc_handler
        rpcContentC1).payload.status = "success" ∧
      (ExtState.init "iec" []).server_side_rpc_handler rpcContentC1 =
        ExtState.server_side_rpc_handler
          { ExtState.init "iec" [] with connected := true } rpcContentC1) :=
  ⟨rfl, C1_amended (ExtState.init "iec" []) rpcContentC1 rfl⟩

/-- Claim C7: when some command for a point address is still outstanding
(not yet confirmed, terminated, rejected or timed out), a second
CommandRequest for the same address fails immediately with
`CommandError::Busy` and the dispatcher state — in particular the first
command's lifecycle entry — is left untouched. -/
theorem C7_second_command_busy (st : DispatcherState) (req : CommandRequest)
    (h : st.outstandingFor req.pointAddress = true) :
    st.sendCommand req = (.error .busy, st) := by
  simp [DispatcherState.sendCommand, h]

/-- A dispatcher state with one sent, unresolved command for point 7. -/
def dispatchStC7 : DispatcherState :=
  { nextActivationSeq := 1
    inflight := [{ activationSeq := 0
                   request := { deviceId := "dev", pointAddress := 7,
                                commandType := 45, value := 1, qualifier := 0 }
                   phase := .sent }] }

/-- A second command request aimed at the same point address 7. -/
def dispatchReqC7 : CommandRequest :=
  { deviceId := "dev", pointAddress := 7, commandType := 45, value := 0,
    qualifier := 0 }

/-- Claim C7 witness: the busy rejection at the concrete dispatcher
state holding one outstanding command for the requested point. -/
theorem C7_witness :
    dispatchStC7.outstandingFor dispatchReqC7.pointAddress = true ∧
    dispatchStC7.sendCommand dispatchReqC7 =
      (.error .busy, dispatchStC7) :=
  ⟨by decide, C7_second_command_busy dispatchStC7 dispatchReqC7 (by decide)⟩

/-- Claim C6: for every structurally valid APDU value, the Frame Codec
satisfies the round-trip law `decode (encode apdu) = apdu`, where
`encode` maps an APDU to bytes and `decode` maps bytes to an APDU or a
typed `FrameError`. -/
theorem C6_decode_encode_roundtrip (a : APDU) (h : a.validb = true) :
    decode a.encode = .ok a := by
  cases a with
  | uFrame f => cases f <;> rfl
  | sFrame rsn =>
    simp only [APDU.encode, encodeSeq, decode, maxApduLength]
    simp only [List.length_cons, List.length_nil]
    rw [if_neg (by omega), if_neg (by omega), if_neg (by omega),
      if_neg (by omega)]
    rw [if_neg (by decide), if_pos trivial, if_neg (by omega)]
    have e : rsn / 128 * 128 + rsn % 128 * 2 / 2 = rsn := by omega
    rw [e]
  | iFrame ssn rsn asdu =>
    simp only [APDU.validb, maxApduLength, Bool.and_eq_true,
      decide_eq_true_eq] at h
    obtain ⟨⟨⟨h1, h2⟩, h3⟩, h4⟩ := h
    simp only [APDU.encode, encodeSeq, decode, maxApduLength,
      List.cons_append, List.nil_append]
    simp only [List.length_cons]
    rw [if_neg (by omega), if_neg (by omega), if_neg (by omega),
      if_neg (by omega), if_pos (by omega), if_neg (by omega)]
    have e1 : ssn / 128 * 128 + ssn % 128 * 2 / 2 = ssn := by omega
    have e2 : rsn / 128 * 128 + rsn % 128 * 2 / 2 = rsn := by omega
    have e3 : 4 + asdu.length - 4 = asdu.length := by omega
    rw [e1, e2, e3, List.take_length]

/-- Claim C6 witness: the round-trip at a concrete valid I-format frame
carrying a three-byte ASDU. -/
theorem C6_witness :
    (APDU.iFrame 5 3 [1, 2, 3]).validb = true ∧
    decode (APDU.iFrame 5 3 [1, 2, 3]).encode =
      .ok (.iFrame 5 3 [1, 2, 3]) :=
  ⟨by decide, C6_decode_encode_roundtrip (.iFrame 5 3 [1, 2, 3]) (by decide)⟩

end IEC104
